import Mathlib

/-!
Shallow embedding of `src/hid-trackball-interface.c` (ZMK HID trackball
interface module): the input-mode classifier/actuator driven by layer-state
events, and the automouse layer controller driven by HID indicator events
(primary listener and optional USB vendor feature-report channel).

External collaborators (keymap layer activation, behavior queue, activity
state, delayable work) are modelled explicitly: the automouse layer's
active bit and the current time live in the system state, delayable work
items are `Option Nat` deadlines, and calls into collaborators are recorded
in an `Outputs` record.
-/

namespace TrackballInterface

/-- The `LED_SLCK` bit mask (0x04) from the source. -/
def LED_SLCK : Nat := 0x04

/-- `enum interface_input_mode` from the source. -/
inductive InterfaceInputMode where
  | MOVE
  | SCROLL
  | SNIPE
deriving DecidableEq, Repr

/-- `struct interface_config`: layer lists (in scan order), the automouse
layer id and the automouse deactivation timeout. -/
structure InterfaceConfig where
  scroll_layers : List Int
  snipe_layers : List Int
  automouse_layer : Int
  automouse_layer_timeout_ms : Nat
deriving DecidableEq, Repr

/-- A behavior-queue command issued by `toggle_scroll` / `cycle_dpi`. -/
inductive TrackballCommand where
  | ToggleScroll
  | CycleDpi
deriving DecidableEq, Repr

/-- `struct interface_data`: the mutable controller state. Each
`k_work_delayable` is modelled as `Option Nat`: `some deadline` when the
work item is scheduled, `none` otherwise. -/
structure InterfaceData where
  curr_mode : InterfaceInputMode
  automouse_enabled : Bool
  activate_automouse_layer_delayed : Option Nat
  deactivate_automouse_layer_delayed : Option Nat
deriving DecidableEq, Repr

/-- Whole-system state: the module's `interface_data`, the external keymap's
active bit for the automouse layer, and the current time in ms. -/
structure SysState where
  data : InterfaceData
  automouse_layer_active : Bool
  now : Nat
deriving DecidableEq, Repr

/-- Calls made into external collaborators during one handler run. -/
structure Outputs where
  motion_events : Nat
  layer_activations : Nat
  layer_deactivations : Nat
  commands : List TrackballCommand
deriving DecidableEq, Repr

/-- No collaborator calls. -/
def Outputs.empty : Outputs := ⟨0, 0, 0, []⟩

/-- `k_work_schedule`: a no-op when the work item is already scheduled. -/
def k_work_schedule (w : Option Nat) (deadline : Nat) : Option Nat :=
  match w with
  | some d => some d
  | none => some deadline

/-- `k_work_reschedule`: cancels any previous schedule and schedules anew. -/
def k_work_reschedule (w : Option Nat) (deadline : Nat) : Option Nat :=
  some deadline

/-- `k_work_cancel_delayable`. -/
def k_work_cancel_delayable (w : Option Nat) : Option Nat :=
  none

/-- `k_work_delayable_is_pending`. -/
def k_work_delayable_is_pending (w : Option Nat) : Bool :=
  w.isSome

/-- `activate_automouse_layer`: if the keyboard is not in the active
activity state, emit one synthetic relative-input event and schedule the
delayed activation 50 ms out; otherwise activate the automouse layer and
set `automouse_enabled` immediately. `activity_active` models
`zmk_activity_get_state() == ZMK_ACTIVITY_ACTIVE`. -/
def activate_automouse_layer (activity_active : Bool) (st : SysState) :
    SysState × Outputs :=
  if !activity_active then
    ({ st with data := { st.data with
        activate_automouse_layer_delayed :=
          k_work_schedule st.data.activate_automouse_layer_delayed (st.now + 50) } },
     { Outputs.empty with motion_events := 1 })
  else
    ({ st with
        automouse_layer_active := true,
        data := { st.data with automouse_enabled := true } },
     { Outputs.empty with layer_activations := 1 })

/-- `activate_automouse_layer_work`: body of the delayed activation work
item — activate the automouse layer and set `automouse_enabled`. -/
def activate_automouse_layer_work (st : SysState) : SysState × Outputs :=
  ({ st with
      automouse_layer_active := true,
      data := { st.data with automouse_enabled := true } },
   { Outputs.empty with layer_activations := 1 })

/-- `deactivate_automouse_layer`: body of the delayed deactivation work
item — deactivate the layer if it is still active, and unconditionally
clear `automouse_enabled`. -/
def deactivate_automouse_layer (st : SysState) : SysState × Outputs :=
  if st.automouse_layer_active then
    ({ st with
        automouse_layer_active := false,
        data := { st.data with automouse_enabled := false } },
     { Outputs.empty with layer_deactivations := 1 })
  else
    ({ st with data := { st.data with automouse_enabled := false } },
     Outputs.empty)

/-- `hid_indicators_listener_cb`: the primary indicator-changed handler.
`indicators` is the event's bitmask payload. Returns the C return code
together with the new state and the collaborator calls. -/
def hid_indicators_listener_cb (cfg : InterfaceConfig) (indicators : Nat)
    (activity_active : Bool) (st : SysState) : Int × SysState × Outputs :=
  if indicators &&& LED_SLCK != 0 then
    if !st.data.automouse_enabled && !st.automouse_layer_active then
      let r := activate_automouse_layer activity_active st
      (0, r.1, r.2)
    else if k_work_delayable_is_pending st.data.deactivate_automouse_layer_delayed then
      (0, { st with data := { st.data with
              deactivate_automouse_layer_delayed :=
                k_work_cancel_delayable st.data.deactivate_automouse_layer_delayed } },
       Outputs.empty)
    else
      (0, st, Outputs.empty)
  else if st.data.automouse_enabled && !(indicators &&& LED_SLCK != 0) then
    (0, { st with data := { st.data with
            deactivate_automouse_layer_delayed :=
              k_work_reschedule st.data.deactivate_automouse_layer_delayed
                (st.now + cfg.automouse_layer_timeout_ms) } },
     Outputs.empty)
  else
    (0, st, Outputs.empty)

/-- `vendor_set_report_cb`: the secondary (USB feature-report) handler.
`len` is the int32 payload length, `buf` the report bytes (byte 0 is the
report id). Returns `-EINVAL` (= -22) for payloads shorter than 2 bytes. -/
def vendor_set_report_cb (cfg : InterfaceConfig) (len : Int) (buf : List Nat)
    (activity_active : Bool) (st : SysState) : Int × SysState × Outputs :=
  if len < 2 then
    (-22, st, Outputs.empty)
  else
    let report_data := buf.getD 1 0
    if report_data &&& LED_SLCK != 0 then
      if !st.data.automouse_enabled && !st.automouse_layer_active then
        let r := activate_automouse_layer activity_active st
        (0, r.1, r.2)
      else if k_work_delayable_is_pending st.data.deactivate_automouse_layer_delayed then
        (0, { st with data := { st.data with
                deactivate_automouse_layer_delayed :=
                  k_work_cancel_delayable st.data.deactivate_automouse_layer_delayed } },
         Outputs.empty)
      else
        (0, st, Outputs.empty)
    else if st.data.automouse_enabled then
      (0, { st with data := { st.data with
              deactivate_automouse_layer_delayed :=
                k_work_reschedule st.data.deactivate_automouse_layer_delayed
                  (st.now + cfg.automouse_layer_timeout_ms) } },
       Outputs.empty)
    else
      (0, st, Outputs.empty)

/-- `get_input_mode_for_current_layer`: scan the scroll layers in order,
then the snipe layers, against the keymap's layer-active query. -/
def get_input_mode_for_current_layer (cfg : InterfaceConfig)
    (layer_active : Int → Bool) : InterfaceInputMode :=
  if cfg.scroll_layers.any layer_active then .SCROLL
  else if cfg.snipe_layers.any layer_active then .SNIPE
  else .MOVE

/-- The `switch` block of `layer_state_listener_cb`: commands emitted for
the transition `curr_mode → input_mode`, in emission order. -/
def mode_transition_commands (curr_mode input_mode : InterfaceInputMode) :
    List TrackballCommand :=
  match input_mode with
  | .MOVE =>
    if curr_mode = .SCROLL then [.ToggleScroll]
    else if curr_mode = .SNIPE then [.CycleDpi]
    else []
  | .SCROLL =>
    if curr_mode = .MOVE then [.ToggleScroll]
    else if curr_mode = .SNIPE then [.CycleDpi, .ToggleScroll]
    else []
  | .SNIPE =>
    if curr_mode = .MOVE then [.CycleDpi]
    else if curr_mode = .SCROLL then [.ToggleScroll, .CycleDpi]
    else []

/-- `layer_state_listener_cb`: recompute the input mode; if it changed,
emit the transition commands and record the new mode. -/
def layer_state_listener_cb (cfg : InterfaceConfig) (layer_active : Int → Bool)
    (st : SysState) : Int × SysState × Outputs :=
  let input_mode := get_input_mode_for_current_layer cfg layer_active
  if input_mode != st.data.curr_mode then
    (0, { st with data := { st.data with curr_mode := input_mode } },
     { Outputs.empty with commands := mode_transition_commands st.data.curr_mode input_mode })
  else
    (0, st, Outputs.empty)

/-- Initial state: zero-initialised statics (`curr_mode = MOVE`,
`automouse_enabled = false`) with neither work item scheduled. -/
def interface_init : SysState :=
  { data := { curr_mode := .MOVE,
              automouse_enabled := false,
              activate_automouse_layer_delayed := none,
              deactivate_automouse_layer_delayed := none },
    automouse_layer_active := false,
    now := 0 }

/-- Serialized events the module reacts to: the two indicator channels,
the two work-item expiries, the passage of time, and an external
layer-state change (which re-runs the mode listener and refreshes the
automouse layer's external active bit). -/
inductive InterfaceEvent where
  | hidIndicators (indicators : Nat) (activity_active : Bool)
  | vendorReport (len : Int) (buf : List Nat) (activity_active : Bool)
  | activateExpiry
  | deactivateExpiry
  | timePassed (d : Nat)
  | layerChanged (layer_active : Int → Bool)

/-- One serialized step of the whole system on one event. A delayed work
item fires only while scheduled and only once its deadline has passed;
firing clears the pending flag and runs the work body. -/
def interface_step (cfg : InterfaceConfig) (ev : InterfaceEvent)
    (st : SysState) : SysState × Outputs :=
  match ev with
  | .hidIndicators ind act => (hid_indicators_listener_cb cfg ind act st).2
  | .vendorReport len buf act => (vendor_set_report_cb cfg len buf act st).2
  | .activateExpiry =>
    match st.data.activate_automouse_layer_delayed with
    | some deadline =>
      if deadline ≤ st.now then
        activate_automouse_layer_work
          { st with data := { st.data with activate_automouse_layer_delayed := none } }
      else (st, Outputs.empty)
    | none => (st, Outputs.empty)
  | .deactivateExpiry =>
    match st.data.deactivate_automouse_layer_delayed with
    | some deadline =>
      if deadline ≤ st.now then
        deactivate_automouse_layer
          { st with data := { st.data with deactivate_automouse_layer_delayed := none } }
      else (st, Outputs.empty)
    | none => (st, Outputs.empty)
  | .timePassed d => ({ st with now := st.now + d }, Outputs.empty)
  | .layerChanged la =>
    (layer_state_listener_cb cfg la
      { st with automouse_layer_active := la cfg.automouse_layer }).2

/-- Run a serialized event sequence from a state. -/
def interface_run (cfg : InterfaceConfig) (st : SysState)
    (evs : List InterfaceEvent) : SysState :=
  evs.foldl (fun s e => (interface_step cfg e s).1) st

/-- A sample configuration used for concrete witnesses: scroll layer 3,
snipe layer 5, automouse layer 7, 600 ms timeout. -/
def cfg0 : InterfaceConfig := ⟨[3], [5], 7, 600⟩

/-- Modelled from the spec's §4.2 transition table, with the two
Scroll↔Snipe entries amended to the orders the code actually emits:
Scroll→Snipe is `ToggleScroll, CycleDpi` and Snipe→Scroll is
`CycleDpi, ToggleScroll` (the spec table states the opposite orders). -/
def actuate_spec : InterfaceInputMode → InterfaceInputMode → List TrackballCommand
  | .MOVE, .SCROLL => [.ToggleScroll]
  | .MOVE, .SNIPE => [.CycleDpi]
  | .SCROLL, .MOVE => [.ToggleScroll]
  | .SCROLL, .SNIPE => [.ToggleScroll, .CycleDpi]
  | .SNIPE, .MOVE => [.CycleDpi]
  | .SNIPE, .SCROLL => [.CycleDpi, .ToggleScroll]
  | _, _ => []

/-- Net effect of a command sequence on the two independent external
toggles: `(scroll toggle, DPI toggle)`, each command flipping one of them. -/
def apply_toggle_commands (cmds : List TrackballCommand) (s : Bool × Bool) :
    Bool × Bool :=
  cmds.foldl (fun t c =>
    match c with
    | .ToggleScroll => (!t.1, t.2)
    | .CycleDpi => (t.1, !t.2)) s

/-- The event/state combination under which the code lets the delayed
activation and the delayed deactivation become pending together: a lock-on
indicator payload (from either channel) handled while the host is active
and the delayed activation is still pending. -/
def indicator_on_race (st : SysState) (ev : InterfaceEvent) : Prop :=
  match ev with
  | .hidIndicators ind act =>
    ind &&& LED_SLCK ≠ 0 ∧ act = true ∧
      st.data.activate_automouse_layer_delayed.isSome = true
  | .vendorReport len buf act =>
    ¬ len < 2 ∧ buf.getD 1 0 &&& LED_SLCK ≠ 0 ∧ act = true ∧
      st.data.activate_automouse_layer_delayed.isSome = true
  | _ => False

/-- States reachable from the initial state by serialized event sequences
that never hit the `indicator_on_race` combination. -/
inductive ReachableNoRace (cfg : InterfaceConfig) : SysState → Prop where
  | init : ReachableNoRace cfg interface_init
  | step (st : SysState) (ev : InterfaceEvent) (hr : ReachableNoRace cfg st)
      (hg : ¬ indicator_on_race st ev) :
      ReachableNoRace cfg (interface_step cfg ev st).1

/-- C10: a feature-report delivery whose payload length is below 2 bytes
makes the secondary-channel handler return `-EINVAL` (-22) with the state
unchanged and no collaborator calls. -/
theorem C10_short_report_rejected (cfg : InterfaceConfig) (len : Int)
    (buf : List Nat) (activity_active : Bool) (st : SysState) (h : len < 2) :
    vendor_set_report_cb cfg len buf activity_active st = (-22, st, Outputs.empty) := by
  simp [vendor_set_report_cb, h]

/-- Witness for C10 at a concrete 1-byte report. -/
theorem C10_short_report_rejected_witness :
    vendor_set_report_cb cfg0 1 [1] false interface_init =
      (-22, interface_init, Outputs.empty) :=
  C10_short_report_rejected cfg0 1 [1] false interface_init (by decide)

/-- C6: on an indicator event with the lock bit clear, the handler
reschedules the deactivation work for `automouse_layer_timeout_ms` from
now — replacing whatever deadline was pending — when `automouse_enabled`
is true, and does nothing when it is false; a repeated lock-off event
after `d` ms restarts the single countdown at the later time. -/
theorem C6_indicator_off_debounce (cfg : InterfaceConfig) (ind : Nat)
    (act : Bool) (st : SysState) (h : ind &&& LED_SLCK = 0) :
    (st.data.automouse_enabled = true →
      hid_indicators_listener_cb cfg ind act st =
        (0, { st with data := { st.data with
                deactivate_automouse_layer_delayed :=
                  some (st.now + cfg.automouse_layer_timeout_ms) } },
         Outputs.empty)) ∧
    (st.data.automouse_enabled = false →
      hid_indicators_listener_cb cfg ind act st = (0, st, Outputs.empty)) ∧
    (∀ d : Nat, st.data.automouse_enabled = true →
      (interface_run cfg st
          [.hidIndicators ind act, .timePassed d, .hidIndicators ind act]).data.deactivate_automouse_layer_delayed =
        some (st.now + d + cfg.automouse_layer_timeout_ms)) := by
  refine ⟨?_, ?_, ?_⟩
  · intro hen
    simp [hid_indicators_listener_cb, h, hen, k_work_reschedule]
  · intro hen
    simp [hid_indicators_listener_cb, h, hen]
  · intro d hen
    simp [interface_run, interface_step, hid_indicators_listener_cb, h, hen,
      k_work_reschedule, Nat.add_right_comm]

/-- Witness for C6 at a concrete enabled state. -/
theorem C6_indicator_off_debounce_witness :
    hid_indicators_listener_cb cfg0 0 true
        { interface_init with data := { interface_init.data with automouse_enabled := true } } =
      (0, { interface_init with data := { interface_init.data with
              automouse_enabled := true,
              deactivate_automouse_layer_delayed := some 600 } },
       Outputs.empty) := by
  have h := (C6_indicator_off_debounce cfg0 0 true
    { interface_init with data := { interface_init.data with automouse_enabled := true } }
    (by decide)).1 rfl
  simpa [interface_init] using h

/-- C7: a lock-on indicator event received while the deactivation work is
pending and `automouse_enabled` is true cancels the pending deactivation,
leaves `automouse_enabled` true, and issues no layer-activation call. -/
theorem C7_indicator_on_cancels_deactivation (cfg : InterfaceConfig)
    (ind : Nat) (act : Bool) (st : SysState)
    (hbit : ind &&& LED_SLCK ≠ 0) (hen : st.data.automouse_enabled = true)
    (hp : st.data.deactivate_automouse_layer_delayed.isSome = true) :
    hid_indicators_listener_cb cfg ind act st =
      (0, { st with data := { st.data with
              deactivate_automouse_layer_delayed := none } },
       Outputs.empty) ∧
    (hid_indicators_listener_cb cfg ind act st).2.1.data.automouse_enabled = true ∧
    (hid_indicators_listener_cb cfg ind act st).2.2.layer_activations = 0 := by
  have hmain : hid_indicators_listener_cb cfg ind act st =
      (0, { st with data := { st.data with
              deactivate_automouse_layer_delayed := none } },
       Outputs.empty) := by
    simp [hid_indicators_listener_cb, hbit, hen, k_work_delayable_is_pending, hp,
      k_work_cancel_delayable]
  exact ⟨hmain, by simp [hmain, hen], by simp [hmain, Outputs.empty]⟩

/-- Witness for C7 at a concrete enabled state with a pending deactivation. -/
theorem C7_indicator_on_cancels_deactivation_witness :
    hid_indicators_listener_cb cfg0 4 true
        { interface_init with data := { interface_init.data with
            automouse_enabled := true,
            deactivate_automouse_layer_delayed := some 600 } } =
      (0, { interface_init with data := { interface_init.data with
              automouse_enabled := true,
              deactivate_automouse_layer_delayed := none } },
       Outputs.empty) :=
  (C7_indicator_on_cancels_deactivation cfg0 4 true
    { interface_init with data := { interface_init.data with
        automouse_enabled := true,
        deactivate_automouse_layer_delayed := some 600 } }
    (by decide) rfl rfl).1

/-- C9: the primary indicator handler's behaviour depends only on the
`LED_SLCK` bit of the payload: two payloads agreeing on that bit produce
identical results from every state. -/
theorem C9_lock_bit_only (cfg : InterfaceConfig) (v w : Nat) (act : Bool)
    (st : SysState) (h : v &&& LED_SLCK = w &&& LED_SLCK) :
    hid_indicators_listener_cb cfg v act st =
      hid_indicators_listener_cb cfg w act st := by
  simp only [hid_indicators_listener_cb, h]

/-- Witness for C9: payloads 0x05 and 0xFC agree on the lock bit. -/
theorem C9_lock_bit_only_witness :
    hid_indicators_listener_cb cfg0 5 true interface_init =
      hid_indicators_listener_cb cfg0 252 true interface_init :=
  C9_lock_bit_only cfg0 5 252 true interface_init (by decide)

/-- C1 counterexample: with the current mode Scroll and a snipe layer
becoming active (mode Snipe), the handler emits `ToggleScroll` then
`CycleDpi` — not `CycleDpi` then `ToggleScroll` as the spec's table entry
for Scroll→Snipe states. -/
theorem C1_scroll_snipe_order_counterexample :
    (layer_state_listener_cb cfg0 (fun l => l == 5)
        { interface_init with data := { interface_init.data with curr_mode := .SCROLL } }).2.2.commands =
      [.ToggleScroll, .CycleDpi] ∧
    (layer_state_listener_cb cfg0 (fun l => l == 5)
        { interface_init with data := { interface_init.data with curr_mode := .SCROLL } }).2.2.commands ≠
      [.CycleDpi, .ToggleScroll] := by
  constructor
  · rfl
  · intro h
    simp [layer_state_listener_cb, get_input_mode_for_current_layer, cfg0,
      interface_init, mode_transition_commands, Outputs.empty] at h

/-- C1 (amended): the layer-change handler sets `curr_mode` to the
classifier's output and, when the mode changed, emits exactly the
`actuate_spec` command sequence (the §4.2 table with the Scroll↔Snipe
orders swapped to `ToggleScroll, CycleDpi` and `CycleDpi, ToggleScroll`
respectively); when the mode is unchanged it emits nothing and leaves the
state untouched. -/
theorem C1_layer_handler_transition_table (cfg : InterfaceConfig)
    (layer_active : Int → Bool) (st : SysState) :
    (layer_state_listener_cb cfg layer_active st).2.1 =
      { st with data := { st.data with
          curr_mode := get_input_mode_for_current_layer cfg layer_active } } ∧
    (get_input_mode_for_current_layer cfg layer_active ≠ st.data.curr_mode →
      (layer_state_listener_cb cfg layer_active st).2.2.commands =
        actuate_spec st.data.curr_mode
          (get_input_mode_for_current_layer cfg layer_active)) ∧
    (get_input_mode_for_current_layer cfg layer_active = st.data.curr_mode →
      layer_state_listener_cb cfg layer_active st = (0, st, Outputs.empty)) := by
  cases hm : get_input_mode_for_current_layer cfg layer_active <;>
    cases hc : st.data.curr_mode <;>
      simp [layer_state_listener_cb, hm, hc, mode_transition_commands, actuate_spec] <;>
      (try rw [← hc])

/-- Witness for C1 (amended): Move→Scroll emits one `ToggleScroll`. -/
theorem C1_layer_handler_transition_table_witness :
    (layer_state_listener_cb cfg0 (fun l => l == 3) interface_init).2.2.commands =
      [.ToggleScroll] :=
  (C1_layer_handler_transition_table cfg0 (fun l => l == 3) interface_init).2.1
    (by decide)

/-- C2: the classifier returns Scroll when any configured scroll layer is
active (regardless of snipe layers), otherwise Snipe when any configured
snipe layer is active, otherwise Move. -/
theorem C2_classifier_priority (cfg : InterfaceConfig)
    (layer_active : Int → Bool) :
    ((∃ l ∈ cfg.scroll_layers, layer_active l = true) →
      get_input_mode_for_current_layer cfg layer_active = .SCROLL) ∧
    ((¬ ∃ l ∈ cfg.scroll_layers, layer_active l = true) →
      (∃ l ∈ cfg.snipe_layers, layer_active l = true) →
      get_input_mode_for_current_layer cfg layer_active = .SNIPE) ∧
    ((¬ ∃ l ∈ cfg.scroll_layers, layer_active l = true) →
      (¬ ∃ l ∈ cfg.snipe_layers, layer_active l = true) →
      get_input_mode_for_current_layer cfg layer_active = .MOVE) := by
  refine ⟨?_, ?_, ?_⟩
  · intro h
    have hs : cfg.scroll_layers.any layer_active = true := List.any_eq_true.mpr h
    simp [get_input_mode_for_current_layer, hs]
  · intro h1 h2
    have hs : cfg.scroll_layers.any layer_active = false := by
      rw [← Bool.not_eq_true, List.any_eq_true]
      exact h1
    have hn : cfg.snipe_layers.any layer_active = true := List.any_eq_true.mpr h2
    simp [get_input_mode_for_current_layer, hs, hn]
  · intro h1 h2
    have hs : cfg.scroll_layers.any layer_active = false := by
      rw [← Bool.not_eq_true, List.any_eq_true]
      exact h1
    have hn : cfg.snipe_layers.any layer_active = false := by
      rw [← Bool.not_eq_true, List.any_eq_true]
      exact h2
    simp [get_input_mode_for_current_layer, hs, hn]

/-- Witness for C2: scroll layer 3 active together with snipe layer 5
still classifies as Scroll. -/
theorem C2_classifier_priority_witness :
    get_input_mode_for_current_layer cfg0 (fun l => l == 3 || l == 5) = .SCROLL :=
  (C2_classifier_priority cfg0 (fun l => l == 3 || l == 5)).1
    ⟨3, by decide, by decide⟩

/-- C8: for distinct modes A and B, running the commands of the A→B
transition followed by those of B→A flips each of the two external
toggles an even number of times and leaves any toggle state unchanged. -/
theorem C8_actuate_round_trip (A B : InterfaceInputMode) (h : A ≠ B) :
    (mode_transition_commands A B ++ mode_transition_commands B A).count
        TrackballCommand.ToggleScroll % 2 = 0 ∧
    (mode_transition_commands A B ++ mode_transition_commands B A).count
        TrackballCommand.CycleDpi % 2 = 0 ∧
    ∀ s : Bool × Bool,
      apply_toggle_commands
        (mode_transition_commands A B ++ mode_transition_commands B A) s = s := by
  cases A <;> cases B <;> first
    | exact absurd rfl h
    | exact ⟨by decide, by decide, by decide⟩

/-- Witness for C8 at the Scroll/Snipe pair. -/
theorem C8_actuate_round_trip_witness :
    apply_toggle_commands
        (mode_transition_commands .SCROLL .SNIPE ++ mode_transition_commands .SNIPE .SCROLL)
        (true, false) = (true, false) :=
  (C8_actuate_round_trip .SCROLL .SNIPE (by decide)).2.2 (true, false)

/-- C3: a lock-on indicator event while `automouse_enabled` is false and
the automouse layer is not reported active: with the host not in the
active state it emits exactly one synthetic motion event and schedules the
single delayed activation for now + 50 ms, leaving `automouse_enabled`
false; firing a due delayed activation activates the layer and sets
`automouse_enabled`; with the host active it activates the layer
synchronously with nothing scheduled and no motion event. -/
theorem C3_indicator_on_activation (cfg : InterfaceConfig) (ind : Nat)
    (st : SysState) (hbit : ind &&& LED_SLCK ≠ 0)
    (hen : st.data.automouse_enabled = false)
    (hla : st.automouse_layer_active = false)
    (hpa : st.data.activate_automouse_layer_delayed = none) :
    hid_indicators_listener_cb cfg ind false st =
      (0, { st with data := { st.data with
              activate_automouse_layer_delayed := some (st.now + 50) } },
       { Outputs.empty with motion_events := 1 }) ∧
    (∀ st2 : SysState, ∀ dl : Nat,
      st2.data.activate_automouse_layer_delayed = some dl → dl ≤ st2.now →
      interface_step cfg .activateExpiry st2 =
        ({ st2 with
            automouse_layer_active := true,
            data := { st2.data with
              automouse_enabled := true,
              activate_automouse_layer_delayed := none } },
         { Outputs.empty with layer_activations := 1 })) ∧
    hid_indicators_listener_cb cfg ind true st =
      (0, { st with
              automouse_layer_active := true,
              data := { st.data with automouse_enabled := true } },
       { Outputs.empty with layer_activations := 1 }) := by
  refine ⟨?_, ?_, ?_⟩
  · simp [hid_indicators_listener_cb, hbit, hen, hla, activate_automouse_layer,
      k_work_schedule, hpa]
  · intro st2 dl hdl hle
    simp [interface_step, hdl, hle, activate_automouse_layer_work]
  · simp [hid_indicators_listener_cb, hbit, hen, hla, activate_automouse_layer]

/-- Witness for C3 at the initial state with payload 0x04. -/
theorem C3_indicator_on_activation_witness :
    hid_indicators_listener_cb cfg0 4 false interface_init =
      (0, { interface_init with data := { interface_init.data with
              activate_automouse_layer_delayed := some 50 } },
       { Outputs.empty with motion_events := 1 }) ∧
    hid_indicators_listener_cb cfg0 4 true interface_init =
      (0, { interface_init with
              automouse_layer_active := true,
              data := { interface_init.data with automouse_enabled := true } },
       { Outputs.empty with layer_activations := 1 }) :=
  ⟨(C3_indicator_on_activation cfg0 4 interface_init (by decide) rfl rfl rfl).1,
   (C3_indicator_on_activation cfg0 4 interface_init (by decide) rfl rfl rfl).2.2⟩

/-- C4: on a well-formed report (length at least 2) whose data byte agrees
with an indicator payload on the `LED_SLCK` bit, the secondary
feature-report handler returns exactly what the primary indicator handler
returns from the same state — same return code, same state, same
collaborator calls. -/
theorem C4_channels_equivalent (cfg : InterfaceConfig) (ind : Nat)
    (len : Int) (buf : List Nat) (act : Bool) (st : SysState)
    (hlen : ¬ len < 2) (hbit : buf.getD 1 0 &&& LED_SLCK = ind &&& LED_SLCK) :
    vendor_set_report_cb cfg len buf act st =
      hid_indicators_listener_cb cfg ind act st := by
  simp only [vendor_set_report_cb, hid_indicators_listener_cb, hbit, if_neg hlen]
  cases hB : (ind &&& LED_SLCK != 0) <;> simp [hB]

/-- Witness for C4: a 2-byte report with data byte 0x04 against indicator
payload 0x04. -/
theorem C4_channels_equivalent_witness :
    vendor_set_report_cb cfg0 2 [1, 4] false interface_init =
      hid_indicators_listener_cb cfg0 4 false interface_init :=
  C4_channels_equivalent cfg0 4 2 [1, 4] false interface_init (by decide) (by decide)

/-- C5 counterexample: from the initial state, a lock-on indicator event
while the host is idle (scheduling the delayed activation), a second
lock-on event once the host is active (activating synchronously and
leaving the delayed activation pending), then a lock-off event (scheduling
the delayed deactivation) reach a state where both work items are pending
at once. -/
theorem C5_both_timers_pending_counterexample :
    (interface_run cfg0 interface_init
        [.hidIndicators 4 false, .hidIndicators 4 true, .hidIndicators 0 true]).data.activate_automouse_layer_delayed.isSome = true ∧
    (interface_run cfg0 interface_init
        [.hidIndicators 4 false, .hidIndicators 4 true, .hidIndicators 0 true]).data.deactivate_automouse_layer_delayed.isSome = true := by
  decide

/-- Auxiliary invariant for C5: along race-free executions, the delayed
deactivation is pending only while `automouse_enabled` is true, and the
delayed activation only while it is false. -/
theorem reachable_no_race_invariant (cfg : InterfaceConfig) (st : SysState)
    (h : ReachableNoRace cfg st) :
    (st.data.deactivate_automouse_layer_delayed.isSome = true →
      st.data.automouse_enabled = true) ∧
    (st.data.activate_automouse_layer_delayed.isSome = true →
      st.data.automouse_enabled = false) := by
  induction h with
  | init => simp [interface_init]
  | step st ev hr hg ih =>
    obtain ⟨ih1, ih2⟩ := ih
    cases ev with
    | hidIndicators ind act =>
      simp only [indicator_on_race] at hg
      simp only [interface_step, hid_indicators_listener_cb,
        activate_automouse_layer, k_work_schedule, k_work_cancel_delayable,
        k_work_reschedule, k_work_delayable_is_pending]
      repeat' split
      all_goals simp_all [bne_iff_ne]
    | vendorReport len buf act =>
      simp only [indicator_on_race] at hg
      simp only [interface_step, vendor_set_report_cb,
        activate_automouse_layer, k_work_schedule, k_work_cancel_delayable,
        k_work_reschedule, k_work_delayable_is_pending]
      repeat' split
      all_goals simp_all [bne_iff_ne]
    | activateExpiry =>
      simp only [interface_step, activate_automouse_layer_work]
      repeat' split
      all_goals simp_all
    | deactivateExpiry =>
      simp only [interface_step, deactivate_automouse_layer]
      repeat' split
      all_goals simp_all
    | timePassed d =>
      simpa [interface_step] using ⟨ih1, ih2⟩
    | layerChanged la =>
      simp only [interface_step, layer_state_listener_cb]
      repeat' split
      all_goals simp_all

/-- C5 (amended): along every serialized execution from the initial state
in which no lock-on indicator payload is handled while the host is active
and the delayed activation is pending, at most one of the delayed
activation and the delayed deactivation is pending in every reached state;
without that proviso both can be pending at once. -/
theorem C5_amended_mutual_exclusion (cfg : InterfaceConfig) (st : SysState)
    (h : ReachableNoRace cfg st) :
    ¬ (st.data.activate_automouse_layer_delayed.isSome = true ∧
       st.data.deactivate_automouse_layer_delayed.isSome = true) := by
  intro hc
  have hi := reachable_no_race_invariant cfg st h
  have h1 := hi.1 hc.2
  have h2 := hi.2 hc.1
  simp [h1] at h2

/-- Witness for C5 (amended) at a concrete race-free two-step execution. -/
theorem C5_amended_mutual_exclusion_witness :
    ¬ ((interface_step cfg0 (.hidIndicators 4 false)
          interface_init).1.data.activate_automouse_layer_delayed.isSome = true ∧
       (interface_step cfg0 (.hidIndicators 4 false)
          interface_init).1.data.deactivate_automouse_layer_delayed.isSome = true) :=
  C5_amended_mutual_exclusion cfg0 _
    (ReachableNoRace.step interface_init (.hidIndicators 4 false)
      ReachableNoRace.init (by simp [indicator_on_race]))

end TrackballInterface
